import Mathlib

/-!
Shallow embedding of the per-epoch state-transition core of the beacon chain
(`eth2/beacon/helpers.py` and
`eth2/beacon/state_machines/forks/serenity/epoch_processing.py`).

Conventions of the embedding:
* Python unbounded integers become `Int` where subtraction occurs in the source
  (epochs, slots) and `Nat` for inherently non-negative quantities
  (balances, the justification bitfield, shard numbers, list indices).
  Python `//` and `%` on ints are floor division and floor modulus; Lean's
  `Int` `/` and `%` (`Int.ediv`/`Int.emod`) agree with them for the positive
  divisors used throughout.
* 32-byte hashes are modelled as abstract `Nat` identifiers; the protocol hash
  function is passed in as an abstract parameter where needed.
* Python list indexing is modelled with `List.getD _ 0`; the source only reads
  in-bounds indices after its range validations.
* Fallible code (`ValidationError`) returns `Except String _`.
* Collaborator code that is not part of this core (committee shuffling,
  attestation aggregation) is abstracted as function parameters, following the
  spec's description of those collaborators.
-/

abbrev Epoch := Int
abbrev Slot := Int
abbrev Gwei := Nat
abbrev Shard := Nat
abbrev Hash32 := Nat
abbrev ValidatorIndex := Nat

/-- Modelled from the spec: `ValidatorRecord` "has an activation/exit epoch
pair determining `is_active(epoch)`" (types/validator_records.py is not under
src/). -/
structure ValidatorRecord where
  activation_epoch : Epoch
  exit_epoch : Epoch
deriving Repr, DecidableEq

/-- Modelled from the spec: `is_active(epoch)` is "a pure predicate over two
stored epoch fields (activation, exit)": the validator is active in `epoch`
iff `activation_epoch <= epoch < exit_epoch`. -/
def ValidatorRecord.is_active (v : ValidatorRecord) (epoch : Epoch) : Bool :=
  decide (v.activation_epoch ≤ epoch) && decide (epoch < v.exit_epoch)

/-- `AttestationData` (types/attestation_data.py): the fields this core
reads — `slot`, `shard`, `justified_epoch`. -/
structure AttestationData where
  slot : Slot
  shard : Shard
  justified_epoch : Epoch
deriving Repr, DecidableEq

/-- `Attestation` (types/attestations.py): this core only reads `.data`. -/
structure Attestation where
  data : AttestationData
deriving Repr, DecidableEq

/-- `CrosslinkRecord` (types/crosslink_records.py): `{epoch, shard_block_root}`. -/
structure CrosslinkRecord where
  epoch : Epoch
  shard_block_root : Hash32
deriving Repr, DecidableEq

/-- `Fork` (types/forks.py): previous/current version and activation epoch. -/
structure Fork where
  previous_version : Nat
  current_version : Nat
  epoch : Epoch
deriving Repr, DecidableEq

/-- `BeaconConfig` (configs.py): the static protocol parameters this core
reads. -/
structure BeaconConfig where
  EPOCH_LENGTH : Int
  GENESIS_EPOCH : Epoch
  SHARD_COUNT : Nat
  TARGET_COMMITTEE_SIZE : Nat
  MAX_DEPOSIT_AMOUNT : Gwei
  MIN_SEED_LOOKAHEAD : Int
  ACTIVATION_EXIT_DELAY : Int
  LATEST_ACTIVE_INDEX_ROOTS_LENGTH : Nat
  LATEST_RANDAO_MIXES_LENGTH : Nat
  LATEST_SLASHED_EXIT_LENGTH : Nat
deriving Repr, DecidableEq

/-- `BeaconState` (types/states.py): the fields this core reads or writes. -/
structure BeaconState where
  slot : Slot
  validator_registry : List ValidatorRecord
  validator_balances : List Gwei
  latest_block_roots : List Hash32
  latest_randao_mixes : List Hash32
  latest_active_index_roots : List Hash32
  latest_crosslinks : List CrosslinkRecord
  latest_slashed_balances : List Gwei
  latest_attestations : List Attestation
  justification_bitfield : Nat
  justified_epoch : Epoch
  previous_justified_epoch : Epoch
  finalized_epoch : Epoch
  current_calculation_epoch : Epoch
  previous_calculation_epoch : Epoch
  current_epoch_seed : Hash32
  previous_epoch_seed : Hash32
  current_epoch_start_shard : Shard
  previous_epoch_start_shard : Shard
  validator_registry_update_epoch : Epoch
  fork : Fork
deriving Repr, DecidableEq

--
-- Time unit conversion (helpers.py)
--

/-- `slot_to_epoch(slot, epoch_length) = slot // epoch_length`. -/
def slot_to_epoch (slot : Slot) (epoch_length : Int) : Epoch :=
  slot / epoch_length

/-- `get_epoch_start_slot(epoch, epoch_length) = epoch * epoch_length`. -/
def get_epoch_start_slot (epoch : Epoch) (epoch_length : Int) : Slot :=
  epoch * epoch_length

/-- Modelled from the spec: `BeaconState.current_epoch` (types/states.py is
not under src/) — "the implicit current/previous epoch derived from
`state.slot`": the epoch containing the state's slot. -/
def BeaconState.current_epoch (state : BeaconState) (epoch_length : Int) : Epoch :=
  slot_to_epoch state.slot epoch_length

/-- Modelled from the spec: `BeaconState.previous_epoch` (types/states.py is
not under src/) — the epoch before the current one, never before the genesis
epoch. -/
def BeaconState.previous_epoch (state : BeaconState) (epoch_length : Int)
    (genesis_epoch : Epoch) : Epoch :=
  max (state.current_epoch epoch_length - 1) genesis_epoch

/-- Modelled from the spec: `BeaconState.next_epoch` (types/states.py is not
under src/) — the epoch after the current one. -/
def BeaconState.next_epoch (state : BeaconState) (epoch_length : Int) : Epoch :=
  state.current_epoch epoch_length + 1

--
-- Block root lookup (helpers.py)
--

/-- `_get_block_root(latest_block_roots, state_slot, slot,
latest_block_roots_length)`: validates that the slot is within the retained
window and strictly in the past, then reads the ring buffer. -/
def _get_block_root (latest_block_roots : List Hash32) (state_slot : Slot)
    (slot : Slot) (latest_block_roots_length : Int) : Except String Hash32 :=
  if state_slot > slot + latest_block_roots_length then
    .error "state.slot should be less than or equal to slot + latest_block_roots_length"
  else if slot ≥ state_slot then
    .error "slot should be less than state.slot"
  else
    .ok (latest_block_roots.getD (slot % latest_block_roots_length).toNat 0)

/-- `get_block_root(state, slot, latest_block_roots_length)`. -/
def get_block_root (state : BeaconState) (slot : Slot)
    (latest_block_roots_length : Int) : Except String Hash32 :=
  _get_block_root state.latest_block_roots state.slot slot latest_block_roots_length

--
-- Validator set queries (helpers.py)
--

/-- `get_active_validator_indices(validators, epoch)`: indices, in registry
order, of the validators active in `epoch`. -/
def get_active_validator_indices (validators : List ValidatorRecord)
    (epoch : Epoch) : List ValidatorIndex :=
  ((List.range validators.length).filter
    (fun index => (validators.getD index ⟨0, 0⟩).is_active epoch))

/-- `get_effective_balance(validator_balances, index, max_deposit_amount)
= min(validator_balances[index], max_deposit_amount)`. -/
def get_effective_balance (validator_balances : List Gwei)
    (index : ValidatorIndex) (max_deposit_amount : Gwei) : Gwei :=
  min (validator_balances.getD index 0) max_deposit_amount

/-- `get_total_balance(validator_balances, validator_indices,
max_deposit_amount)`: sum of effective balances. -/
def get_total_balance (validator_balances : List Gwei)
    (validator_indices : List ValidatorIndex) (max_deposit_amount : Gwei) : Gwei :=
  (validator_indices.map
    (fun index => get_effective_balance validator_balances index max_deposit_amount)).sum

--
-- Slashing condition detection (helpers.py)
--

/-- `is_double_vote(a1, a2, epoch_length)`: both attestations target the same
epoch. -/
def is_double_vote (attestation_data_1 attestation_data_2 : AttestationData)
    (epoch_length : Int) : Bool :=
  slot_to_epoch attestation_data_1.slot epoch_length ==
    slot_to_epoch attestation_data_2.slot epoch_length

/-- `is_surround_vote(a1, a2, epoch_length)`: `a1`'s source epoch is strictly
earlier and its target epoch strictly later than `a2`'s. -/
def is_surround_vote (attestation_data_1 attestation_data_2 : AttestationData)
    (epoch_length : Int) : Bool :=
  let source_epoch_1 := attestation_data_1.justified_epoch
  let source_epoch_2 := attestation_data_2.justified_epoch
  let target_epoch_1 := slot_to_epoch attestation_data_1.slot epoch_length
  let target_epoch_2 := slot_to_epoch attestation_data_2.slot epoch_length
  decide (source_epoch_1 < source_epoch_2) && decide (target_epoch_2 < target_epoch_1)

--
-- Ring-buffer lookups with window validation (helpers.py + validation.py)
--

/-- Modelled from the spec: `validate_epoch_for_active_randao_mix`
(validation.py is not under src/) — `get_randao_mix` "fails with RangeError
unless `current_epoch - latest_randao_mixes_length < epoch <= current_epoch`". -/
def validate_epoch_for_active_randao_mix (current_epoch epoch : Epoch)
    (latest_randao_mixes_length : Nat) : Except String Unit :=
  if current_epoch - latest_randao_mixes_length < epoch ∧ epoch ≤ current_epoch then
    .ok ()
  else
    .error "epoch outside lookback window for randao mixes"

/-- `get_randao_mix(state, epoch, epoch_length, latest_randao_mixes_length)`:
validates the lookback window, then reads the ring buffer at
`epoch % latest_randao_mixes_length`. -/
def get_randao_mix (state : BeaconState) (epoch : Epoch) (epoch_length : Int)
    (latest_randao_mixes_length : Nat) : Except String Hash32 :=
  match validate_epoch_for_active_randao_mix
      (state.current_epoch epoch_length) epoch latest_randao_mixes_length with
  | .error e => .error e
  | .ok () =>
      .ok (state.latest_randao_mixes.getD
        (epoch % (latest_randao_mixes_length : Int)).toNat 0)

/-- Modelled from the spec: `validate_epoch_for_active_index_root`
(validation.py is not under src/) — `active_index_root` "fails with RangeError
unless `epoch` falls within `[current_epoch - length + activation_exit_delay
+ 1, current_epoch + activation_exit_delay]`". -/
def validate_epoch_for_active_index_root (current_epoch epoch : Epoch)
    (activation_exit_delay : Int)
    (latest_active_index_roots_length : Nat) : Except String Unit :=
  if current_epoch - latest_active_index_roots_length + activation_exit_delay + 1 ≤ epoch ∧
      epoch ≤ current_epoch + activation_exit_delay then
    .ok ()
  else
    .error "epoch outside lookback window for active index roots"

/-- `get_active_index_root(state, epoch, epoch_length, activation_exit_delay,
latest_active_index_roots_length)`. -/
def get_active_index_root (state : BeaconState) (epoch : Epoch)
    (epoch_length : Int) (activation_exit_delay : Int)
    (latest_active_index_roots_length : Nat) : Except String Hash32 :=
  match validate_epoch_for_active_index_root (state.current_epoch epoch_length)
      epoch activation_exit_delay latest_active_index_roots_length with
  | .error e => .error e
  | .ok () =>
      .ok (state.latest_active_index_roots.getD
        (epoch % (latest_active_index_roots_length : Int)).toNat 0)

/-- `generate_seed(state, epoch, ...)`: hashes the concatenation of the
randao mix at `epoch - min_seed_lookahead`, the active index root at `epoch`,
and the epoch encoding. The protocol hash function `hash_eth2` (not under
src/) and byte-string concatenation are abstracted: `hashFn` consumes the
concatenated pieces as a list. -/
def generate_seed (hashFn : List Nat → Hash32) (state : BeaconState)
    (epoch : Epoch) (epoch_length : Int) (min_seed_lookahead : Int)
    (activation_exit_delay : Int) (latest_active_index_roots_length : Nat)
    (latest_randao_mixes_length : Nat) : Except String Hash32 :=
  match get_randao_mix state (epoch - min_seed_lookahead) epoch_length
      latest_randao_mixes_length with
  | .error e => .error e
  | .ok randao_mix =>
    match get_active_index_root state epoch epoch_length activation_exit_delay
        latest_active_index_roots_length with
    | .error e => .error e
    | .ok active_index_root =>
        .ok (hashFn [randao_mix, active_index_root, epoch.toNat])

--
-- Shared utilities (eth2/_utils, not under src/)
--

/-- Modelled from the spec: `update_tuple_item(tuple_data, index, new_value)`
(eth2/_utils/tuple.py is not under src/) — the copy-on-write field/element
replacement pattern: a copy of the sequence with the element at `index`
replaced. -/
def update_tuple_item (tuple_data : List α) (index : Nat) (new_value : α) :
    List α :=
  tuple_data.set index new_value

--
-- Justification (epoch_processing.py)
--

/-- `_current_previous_epochs_justifiable(state, current_epoch,
previous_epoch, config)`: an epoch is justifiable when its boundary attesting
balance reaches 2/3 of the total active balance. The boundary attesting
balances come from `get_epoch_boundary_attesting_balances`
(epoch_processing_helpers.py, not under src/) — per the spec they are
"externally supplied by the attestation-aggregation collaborator", so that
function is taken as the parameter `ebab`, returning the pair
`(previous_epoch_boundary_attesting_balance,
current_epoch_boundary_attesting_balance)` as in the source. -/
def _current_previous_epochs_justifiable
    (ebab : Epoch → Epoch → BeaconState → BeaconConfig → Gwei × Gwei)
    (state : BeaconState) (current_epoch previous_epoch : Epoch)
    (config : BeaconConfig) : Bool × Bool :=
  let current_epoch_active_validator_indices :=
    get_active_validator_indices state.validator_registry current_epoch
  let previous_epoch_active_validator_indices :=
    get_active_validator_indices state.validator_registry previous_epoch
  let current_total_balance := get_total_balance state.validator_balances
    current_epoch_active_validator_indices config.MAX_DEPOSIT_AMOUNT
  let previous_total_balance := get_total_balance state.validator_balances
    previous_epoch_active_validator_indices config.MAX_DEPOSIT_AMOUNT
  let bal := ebab current_epoch previous_epoch state config
  let previous_epoch_boundary_attesting_balance := bal.1
  let current_epoch_boundary_attesting_balance := bal.2
  let previous_epoch_justifiable :=
    decide (3 * previous_epoch_boundary_attesting_balance ≥ 2 * previous_total_balance)
  let current_epoch_justifiable :=
    decide (3 * current_epoch_boundary_attesting_balance ≥ 2 * current_total_balance)
  (current_epoch_justifiable, previous_epoch_justifiable)

/-- `_get_finalized_epoch(justification_bitfield, previous_justified_epoch,
justified_epoch, finalized_epoch, previous_epoch)`: the four finality rules,
checked in the order 4, 3, 2, 1; the second component records which rule
fired. -/
def _get_finalized_epoch (justification_bitfield : Nat)
    (previous_justified_epoch justified_epoch finalized_epoch
      previous_epoch : Epoch) : Epoch × Nat :=
  let rule_1 := ((justification_bitfield >>> 1) % 8 == 0b111) &&
    (previous_justified_epoch == previous_epoch - 2)
  let rule_2 := ((justification_bitfield >>> 1) % 4 == 0b11) &&
    (previous_justified_epoch == previous_epoch - 1)
  let rule_3 := (justification_bitfield % 8 == 0b111) &&
    (justified_epoch == previous_epoch - 1)
  let rule_4 := (justification_bitfield % 4 == 0b11) &&
    (justified_epoch == previous_epoch)
  if rule_4 then (justified_epoch, 4)
  else if rule_3 then (justified_epoch, 3)
  else if rule_2 then (previous_justified_epoch, 2)
  else if rule_1 then (previous_justified_epoch, 1)
  else (finalized_epoch, 0)

/-- `process_justification(state, config)`: shift the justification bitfield,
OR in the justifiability bits, pick the new justified epoch, evaluate the
finality rules, and snapshot the old justified epoch. `ebab` abstracts the
attestation-aggregation collaborator (see
`_current_previous_epochs_justifiable`). -/
def process_justification
    (ebab : Epoch → Epoch → BeaconState → BeaconConfig → Gwei × Gwei)
    (state : BeaconState) (config : BeaconConfig) : BeaconState :=
  let current_epoch := state.current_epoch config.EPOCH_LENGTH
  let previous_epoch := state.previous_epoch config.EPOCH_LENGTH config.GENESIS_EPOCH
  let justifiable :=
    _current_previous_epochs_justifiable ebab state current_epoch previous_epoch config
  let current_epoch_justifiable := justifiable.1
  let previous_epoch_justifiable := justifiable.2
  let _justification_bitfield := state.justification_bitfield <<< 1
  let justification_bitfield :=
    if previous_epoch_justifiable && current_epoch_justifiable then
      _justification_bitfield ||| 3
    else if previous_epoch_justifiable then
      _justification_bitfield ||| 2
    else if current_epoch_justifiable then
      _justification_bitfield ||| 1
    else
      _justification_bitfield
  let new_justified_epoch :=
    if current_epoch_justifiable then current_epoch
    else if previous_epoch_justifiable then previous_epoch
    else state.justified_epoch
  let finalized_epoch :=
    (_get_finalized_epoch justification_bitfield state.previous_justified_epoch
      state.justified_epoch state.finalized_epoch previous_epoch).1
  { state with
    previous_justified_epoch := state.justified_epoch
    justified_epoch := new_justified_epoch
    justification_bitfield := justification_bitfield
    finalized_epoch := finalized_epoch }

--
-- Concrete sample objects for witnesses and counterexamples
--

/-- A small concrete config for concrete evaluations: 5-slot epochs. -/
def sampleConfig : BeaconConfig :=
  { EPOCH_LENGTH := 5
    GENESIS_EPOCH := 0
    SHARD_COUNT := 8
    TARGET_COMMITTEE_SIZE := 2
    MAX_DEPOSIT_AMOUNT := 32
    MIN_SEED_LOOKAHEAD := 1
    ACTIVATION_EXIT_DELAY := 1
    LATEST_ACTIVE_INDEX_ROOTS_LENGTH := 8
    LATEST_RANDAO_MIXES_LENGTH := 8
    LATEST_SLASHED_EXIT_LENGTH := 8 }

/-- A concrete state at slot 10 (current epoch 2, previous epoch 1) with one
always-active validator holding a full deposit. -/
def sampleState : BeaconState :=
  { slot := 10
    validator_registry := [⟨0, 100⟩]
    validator_balances := [32]
    latest_block_roots := [0, 0]
    latest_randao_mixes := [0, 0]
    latest_active_index_roots := [0, 0]
    latest_crosslinks := [⟨0, 0⟩, ⟨0, 0⟩]
    latest_slashed_balances := [0, 0]
    latest_attestations := []
    justification_bitfield := 0
    justified_epoch := 1
    previous_justified_epoch := 0
    finalized_epoch := 0
    current_calculation_epoch := 0
    previous_calculation_epoch := 0
    current_epoch_seed := 0
    previous_epoch_seed := 0
    current_epoch_start_shard := 0
    previous_epoch_start_shard := 0
    validator_registry_update_epoch := 0
    fork := ⟨0, 0, 0⟩ }

/-- Attestation-aggregation collaborator reporting a supermajority boundary
attesting balance for the previous epoch only. -/
def ebabPrevOnly : Epoch → Epoch → BeaconState → BeaconConfig → Gwei × Gwei :=
  fun _ _ _ _ => (32, 0)

/-- Attestation-aggregation collaborator reporting supermajority boundary
attesting balances for both epochs. -/
def ebabBoth : Epoch → Epoch → BeaconState → BeaconConfig → Gwei × Gwei :=
  fun _ _ _ _ => (32, 32)

--
-- C1: the justification bitfield update
--

/-- C1 (amended): the justification bitfield returned by
`process_justification` equals the input bitfield shifted left by one bit,
bitwise-ORed with a two-bit value in which bit 1 (value 2) is set iff the
previous epoch is justifiable and bit 0 (value 1) is set iff the current
epoch is justifiable; no bits beyond those derived by the shift and OR are
set. -/
theorem process_justification_bitfield_shift_or
    (ebab : Epoch → Epoch → BeaconState → BeaconConfig → Gwei × Gwei)
    (state : BeaconState) (config : BeaconConfig) :
    (process_justification ebab state config).justification_bitfield =
      (state.justification_bitfield <<< 1) |||
        ((if (_current_previous_epochs_justifiable ebab state
              (state.current_epoch config.EPOCH_LENGTH)
              (state.previous_epoch config.EPOCH_LENGTH config.GENESIS_EPOCH)
              config).2 then 2 else 0) |||
         (if (_current_previous_epochs_justifiable ebab state
              (state.current_epoch config.EPOCH_LENGTH)
              (state.previous_epoch config.EPOCH_LENGTH config.GENESIS_EPOCH)
              config).1 then 1 else 0)) := by
  rcases hj : _current_previous_epochs_justifiable ebab state
      (state.current_epoch config.EPOCH_LENGTH)
      (state.previous_epoch config.EPOCH_LENGTH config.GENESIS_EPOCH) config
    with ⟨c, p⟩
  simp only [process_justification, hj]
  cases c <;> cases p <;> simp

/-- C1, counterexample to the claim as stated: with the previous epoch
justifiable and the current epoch not, and input bitfield 0, the code
produces bitfield 2 (bit 1 set for the previous epoch), not
`(0 <<< 1) ||| 1` = 1 as the claim's bit assignment (bit 0 = previous,
bit 1 = current) would require. -/
theorem process_justification_bitfield_claimed_bit_order_false :
    _current_previous_epochs_justifiable ebabPrevOnly sampleState 2 1 sampleConfig
        = (false, true) ∧
    (process_justification ebabPrevOnly sampleState sampleConfig).justification_bitfield = 2 ∧
    (process_justification ebabPrevOnly sampleState sampleConfig).justification_bitfield ≠
      (sampleState.justification_bitfield <<< 1) ||| 1 := by
  decide

--
-- C2: the four finality rules
--

/-- C2: `_get_finalized_epoch` checks the four finality rules in priority
order 4, 3, 2, 1, first match wins: rule 4 fires when the bottom 2 bits of
the bitfield are `0b11` and `justified_epoch = previous_epoch`, finalizing
`justified_epoch`; rule 3 when the bottom 3 bits are `0b111` and
`justified_epoch = previous_epoch - 1`, finalizing `justified_epoch`; rule 2
when the bitfield shifted right by 1 and masked to 2 bits is `0b11` and
`previous_justified_epoch = previous_epoch - 1`, finalizing
`previous_justified_epoch`; rule 1 when the bitfield shifted right by 1 and
masked to 3 bits is `0b111` and
`previous_justified_epoch = previous_epoch - 2`, finalizing
`previous_justified_epoch`; if no rule matches, the finalized epoch is
returned unchanged. -/
theorem _get_finalized_epoch_rule_order (justification_bitfield : Nat)
    (previous_justified_epoch justified_epoch finalized_epoch
      previous_epoch : Epoch) :
    _get_finalized_epoch justification_bitfield previous_justified_epoch
        justified_epoch finalized_epoch previous_epoch =
      if justification_bitfield % 4 = 0b11 ∧ justified_epoch = previous_epoch then
        (justified_epoch, 4)
      else if justification_bitfield % 8 = 0b111 ∧
          justified_epoch = previous_epoch - 1 then
        (justified_epoch, 3)
      else if (justification_bitfield >>> 1) % 4 = 0b11 ∧
          previous_justified_epoch = previous_epoch - 1 then
        (previous_justified_epoch, 2)
      else if (justification_bitfield >>> 1) % 8 = 0b111 ∧
          previous_justified_epoch = previous_epoch - 2 then
        (previous_justified_epoch, 1)
      else
        (finalized_epoch, 0) := by
  simp only [_get_finalized_epoch, Bool.and_eq_true, beq_iff_eq]

--
-- C3: monotonic finality
--

/-- Helper: the finalized epoch chosen by `_get_finalized_epoch` is always
one of the justified epoch, the previous justified epoch, or the old
finalized epoch. -/
theorem _get_finalized_epoch_mem (justification_bitfield : Nat)
    (previous_justified_epoch justified_epoch finalized_epoch
      previous_epoch : Epoch) :
    (_get_finalized_epoch justification_bitfield previous_justified_epoch
        justified_epoch finalized_epoch previous_epoch).1 = justified_epoch ∨
    (_get_finalized_epoch justification_bitfield previous_justified_epoch
        justified_epoch finalized_epoch previous_epoch).1 =
          previous_justified_epoch ∨
    (_get_finalized_epoch justification_bitfield previous_justified_epoch
        justified_epoch finalized_epoch previous_epoch).1 = finalized_epoch := by
  simp only [_get_finalized_epoch]
  split_ifs <;> simp

/-- C3 (amended): for every state whose finalized epoch does not exceed its
justified epoch and its previous justified epoch — as is the case for every
state reachable by the protocol — the finalized epoch of the state returned
by `process_justification` is greater than or equal to the finalized epoch of
the input state. -/
theorem process_justification_finality_monotone
    (ebab : Epoch → Epoch → BeaconState → BeaconConfig → Gwei × Gwei)
    (state : BeaconState) (config : BeaconConfig)
    (h1 : state.finalized_epoch ≤ state.previous_justified_epoch)
    (h2 : state.finalized_epoch ≤ state.justified_epoch) :
    state.finalized_epoch ≤
      (process_justification ebab state config).finalized_epoch := by
  have he : (process_justification ebab state config).finalized_epoch =
      (_get_finalized_epoch
        (process_justification ebab state config).justification_bitfield
        state.previous_justified_epoch state.justified_epoch
        state.finalized_epoch
        (state.previous_epoch config.EPOCH_LENGTH config.GENESIS_EPOCH)).1 := rfl
  rw [he]
  rcases _get_finalized_epoch_mem
      (process_justification ebab state config).justification_bitfield
      state.previous_justified_epoch state.justified_epoch state.finalized_epoch
      (state.previous_epoch config.EPOCH_LENGTH config.GENESIS_EPOCH)
    with h | h | h <;> rw [h] <;> assumption

/-- C3 witness: the monotonicity theorem applied at a concrete state. -/
theorem process_justification_finality_monotone_witness :
    sampleState.finalized_epoch ≤
      (process_justification ebabBoth sampleState sampleConfig).finalized_epoch :=
  process_justification_finality_monotone ebabBoth sampleState sampleConfig
    (by decide) (by decide)

/-- C3, counterexample to the claim as stated: for an (unreachable) input
state whose finalized epoch 5 exceeds its justified epoch 1, finality rule 4
fires and the returned finalized epoch drops to 1 — so monotonicity does not
hold for *every* beacon state. -/
theorem process_justification_finality_monotone_false :
    (process_justification ebabBoth
        { sampleState with finalized_epoch := 5 } sampleConfig).finalized_epoch <
      ({ sampleState with finalized_epoch := 5 } : BeaconState).finalized_epoch := by
  decide

--
-- C5: finality rules read the pre-update justified epochs
--

/-- C5: `process_justification` evaluates the finality rules on the
post-shift justification bitfield combined with the *input* state's
pre-update `justified_epoch` and `previous_justified_epoch`: the justified
epoch newly selected in the same transition never influences that
transition's finalization decision. -/
theorem process_justification_uses_pre_update_epochs
    (ebab : Epoch → Epoch → BeaconState → BeaconConfig → Gwei × Gwei)
    (state : BeaconState) (config : BeaconConfig) :
    (process_justification ebab state config).finalized_epoch =
      (_get_finalized_epoch
        (process_justification ebab state config).justification_bitfield
        state.previous_justified_epoch state.justified_epoch
        state.finalized_epoch
        (state.previous_epoch config.EPOCH_LENGTH config.GENESIS_EPOCH)).1 :=
  rfl

--
-- C8: block-root lookup window
--

/-- C8: `get_block_root(state, slot, latest_block_roots_length)` succeeds
exactly when `state.slot - latest_block_roots_length ≤ slot < state.slot`
(the slot is strictly in the past and within the retained window) — failing
with a range error iff `slot ≥ state.slot` or
`state.slot > slot + latest_block_roots_length` — and then returns
`latest_block_roots[slot % latest_block_roots_length]`. -/
theorem get_block_root_window (state : BeaconState) (slot : Slot)
    (latest_block_roots_length : Int) (root : Hash32) :
    get_block_root state slot latest_block_roots_length = Except.ok root ↔
      (state.slot - latest_block_roots_length ≤ slot ∧ slot < state.slot ∧
        root = state.latest_block_roots.getD
          (slot % latest_block_roots_length).toNat 0) := by
  unfold get_block_root _get_block_root
  generalize state.slot = ss
  split_ifs with hA hB
  · constructor
    · intro h; exact absurd h (by simp)
    · rintro ⟨h1, -, -⟩; exfalso; linarith
  · constructor
    · intro h; exact absurd h (by simp)
    · rintro ⟨-, h2, -⟩; exfalso; linarith
  · push_neg at hA hB
    simp only [Except.ok.injEq]
    constructor
    · intro h; exact ⟨by linarith, hB, h.symm⟩
    · rintro ⟨-, -, h⟩; exact h.symm

--
-- C10: surround-vote asymmetry
--

/-- C10: for every pair of attestation-data values and every positive epoch
length, `is_surround_vote a b` and `is_surround_vote b a` are never both
true (the surround relation is asymmetric); in particular
`is_surround_vote a a` is always false. -/
theorem is_surround_vote_asymmetric (a b : AttestationData)
    (epoch_length : Int) (h : 0 < epoch_length) :
    ¬(is_surround_vote a b epoch_length = true ∧
        is_surround_vote b a epoch_length = true) ∧
    is_surround_vote a a epoch_length = false := by
  constructor
  · rintro ⟨h1, h2⟩
    simp only [is_surround_vote, Bool.and_eq_true, decide_eq_true_eq] at h1 h2
    exact absurd h2.1 (lt_asymm h1.1)
  · simp [is_surround_vote]

/-- C10 witness: the asymmetry theorem applied to a concrete surrounding
pair (source 1 < 2, target epoch 2 > 1) with 5-slot epochs. -/
theorem is_surround_vote_asymmetric_witness :
    ¬(is_surround_vote ⟨10, 0, 1⟩ ⟨7, 0, 2⟩ 5 = true ∧
        is_surround_vote ⟨7, 0, 2⟩ ⟨10, 0, 1⟩ 5 = true) ∧
    is_surround_vote ⟨10, 0, 1⟩ ⟨10, 0, 1⟩ 5 = false :=
  is_surround_vote_asymmetric ⟨10, 0, 1⟩ ⟨7, 0, 2⟩ 5 (by decide)

--
-- Crosslinks (epoch_processing.py)
--

/-- Modelled from the spec: `get_previous_epoch_attestations(state,
epoch_length, genesis_epoch)` (epoch_processing_helpers.py is not under
src/) — the state's latest attestations whose slot falls in the previous
epoch. -/
def get_previous_epoch_attestations (state : BeaconState) (epoch_length : Int)
    (genesis_epoch : Epoch) : List Attestation :=
  state.latest_attestations.filter (fun attestation =>
    slot_to_epoch attestation.data.slot epoch_length ==
      state.previous_epoch epoch_length genesis_epoch)

/-- Modelled from the spec: `get_current_epoch_attestations(state,
epoch_length)` (epoch_processing_helpers.py is not under src/) — the state's
latest attestations whose slot falls in the current epoch. -/
def get_current_epoch_attestations (state : BeaconState)
    (epoch_length : Int) : List Attestation :=
  state.latest_attestations.filter (fun attestation =>
    slot_to_epoch attestation.data.slot epoch_length ==
      state.current_epoch epoch_length)

/-- `_filter_attestations_by_shard(attestations, shard)`. -/
def _filter_attestations_by_shard (attestations : List Attestation)
    (shard : Shard) : List Attestation :=
  attestations.filter (fun attestation => attestation.data.shard == shard)

/-- The type of `get_winning_root` (epoch_processing_helpers.py, not under
src/): per the spec it is the attestation-aggregation collaborator's
winning-root computation, returning the winning shard block root and its
total attesting balance; `none` models `NoWinningRootError`. Abstracted as a
parameter of `process_crosslinks`. -/
abbrev GetWinningRoot :=
  BeaconState → Shard → List Attestation → Gwei → BeaconConfig →
    Option (Hash32 × Gwei)

/-- The type of `get_crosslink_committees_at_slot` (committee_helpers.py, not
under src/): per the spec the committee-assignment collaborator supplies,
"for a given slot, the list of (committee, shard) pairs". Abstracted as a
parameter of `process_crosslinks`. -/
abbrev GetCrosslinkCommitteesAtSlot :=
  BeaconState → Slot → BeaconConfig → List (List ValidatorIndex × Shard)

/-- The body of the inner loop of `process_crosslinks`, for one
`(crosslink_committee, shard)` pair: look up the winning root for the shard
among the attestations filtered to that shard; if one exists and its
attesting balance reaches 2/3 of the committee's total effective balance,
replace the shard's crosslink record with
`{epoch: current_epoch, shard_block_root: winning_root}`; otherwise leave
`latest_crosslinks` unchanged. -/
def _process_crosslinks_at_committee (get_winning_root : GetWinningRoot)
    (state : BeaconState) (config : BeaconConfig)
    (attestations : List Attestation)
    (latest_crosslinks : List CrosslinkRecord)
    (pair : List ValidatorIndex × Shard) : List CrosslinkRecord :=
  let crosslink_committee := pair.1
  let shard := pair.2
  match get_winning_root state shard
      (_filter_attestations_by_shard attestations shard)
      config.MAX_DEPOSIT_AMOUNT config with
  | none => latest_crosslinks
  | some (winning_root, total_attesting_balance) =>
    let total_balance := (crosslink_committee.map (fun i =>
      get_effective_balance state.validator_balances i
        config.MAX_DEPOSIT_AMOUNT)).sum
    if 3 * total_attesting_balance ≥ 2 * total_balance then
      update_tuple_item latest_crosslinks shard
        ⟨state.current_epoch config.EPOCH_LENGTH, winning_root⟩
    else
      latest_crosslinks

/-- `range(lo, hi)` over integers. -/
def intRange (lo hi : Int) : List Int :=
  (List.range (hi - lo).toNat).map (fun i => lo + i)

/-- `process_crosslinks(state, config)`: for each slot from the previous
epoch's start to the next epoch's start, for each committee/shard pair at
that slot, run `_process_crosslinks_at_committee`; return the state with the
resulting `latest_crosslinks`. -/
def process_crosslinks (get_winning_root : GetWinningRoot)
    (get_crosslink_committees_at_slot : GetCrosslinkCommitteesAtSlot)
    (state : BeaconState) (config : BeaconConfig) : BeaconState :=
  let previous_epoch_attestations := get_previous_epoch_attestations state
    config.EPOCH_LENGTH config.GENESIS_EPOCH
  let current_epoch_attestations := get_current_epoch_attestations state
    config.EPOCH_LENGTH
  let prev_epoch_start_slot := get_epoch_start_slot
    (state.previous_epoch config.EPOCH_LENGTH config.GENESIS_EPOCH)
    config.EPOCH_LENGTH
  let next_epoch_start_slot := get_epoch_start_slot
    (state.next_epoch config.EPOCH_LENGTH) config.EPOCH_LENGTH
  let latest_crosslinks :=
    (intRange prev_epoch_start_slot next_epoch_start_slot).foldl
      (fun lcx slot =>
        (get_crosslink_committees_at_slot state slot config).foldl
          (_process_crosslinks_at_committee get_winning_root state config
            (previous_epoch_attestations ++ current_epoch_attestations))
          lcx)
      state.latest_crosslinks
  { state with latest_crosslinks := latest_crosslinks }

--
-- C4: crosslink update threshold
--

/-- C4: in `process_crosslinks`, whenever a winning root is found for a
shard, that shard's `CrosslinkRecord` is replaced with
`{epoch: current_epoch, shard_block_root: winning_root}` if and only if
3 times the winning root's attesting balance is at least 2 times the total
effective balance of the full committee for that shard; below that threshold
the shard's prior crosslink record is retained unchanged. -/
theorem process_crosslinks_threshold (get_winning_root : GetWinningRoot)
    (state : BeaconState) (config : BeaconConfig)
    (attestations : List Attestation)
    (latest_crosslinks : List CrosslinkRecord)
    (crosslink_committee : List ValidatorIndex) (shard : Shard)
    (winning_root : Hash32) (total_attesting_balance : Gwei)
    (h : get_winning_root state shard
        (_filter_attestations_by_shard attestations shard)
        config.MAX_DEPOSIT_AMOUNT config =
      some (winning_root, total_attesting_balance)) :
    _process_crosslinks_at_committee get_winning_root state config
        attestations latest_crosslinks (crosslink_committee, shard) =
      if 3 * total_attesting_balance ≥
          2 * get_total_balance state.validator_balances crosslink_committee
            config.MAX_DEPOSIT_AMOUNT then
        update_tuple_item latest_crosslinks shard
          ⟨state.current_epoch config.EPOCH_LENGTH, winning_root⟩
      else
        latest_crosslinks := by
  simp only [_process_crosslinks_at_committee, h, get_total_balance]

/-- C4 witness: the spec's below-threshold scenario — a committee of ten
validators of effective balance 30 each (total 300) and a winning root with
attesting balance 150 (3·150 = 450 < 600 = 2·300) leaves the crosslink
list unchanged. -/
theorem process_crosslinks_threshold_witness :
    _process_crosslinks_at_committee (fun _ _ _ _ _ => some (7, 150))
        { sampleState with
            validator_balances := [30, 30, 30, 30, 30, 30, 30, 30, 30, 30] }
        sampleConfig [] [⟨0, 0⟩, ⟨0, 0⟩]
        ([0, 1, 2, 3, 4, 5, 6, 7, 8, 9], 1) = [⟨0, 0⟩, ⟨0, 0⟩] := by
  rw [process_crosslinks_threshold (fun _ _ _ _ _ => some (7, 150))
    { sampleState with
        validator_balances := [30, 30, 30, 30, 30, 30, 30, 30, 30, 30] }
    sampleConfig [] [⟨0, 0⟩, ⟨0, 0⟩] [0, 1, 2, 3, 4, 5, 6, 7, 8, 9] 1 7 150 rfl]
  decide

--
-- C9: process_crosslinks frame
--

/-- C9: for every input state and config (and any committee-assignment and
winning-root collaborators), the state returned by `process_crosslinks`
differs from the input state only in the `latest_crosslinks` field; every
other field of the state is unchanged. -/
theorem process_crosslinks_frame (get_winning_root : GetWinningRoot)
    (get_crosslink_committees_at_slot : GetCrosslinkCommitteesAtSlot)
    (state : BeaconState) (config : BeaconConfig) :
    (process_crosslinks get_winning_root get_crosslink_committees_at_slot
        state config).slot = state.slot ∧
    (process_crosslinks get_winning_root get_crosslink_committees_at_slot
        state config).validator_registry = state.validator_registry ∧
    (process_crosslinks get_winning_root get_crosslink_committees_at_slot
        state config).validator_balances = state.validator_balances ∧
    (process_crosslinks get_winning_root get_crosslink_committees_at_slot
        state config).latest_block_roots = state.latest_block_roots ∧
    (process_crosslinks get_winning_root get_crosslink_committees_at_slot
        state config).latest_randao_mixes = state.latest_randao_mixes ∧
    (process_crosslinks get_winning_root get_crosslink_committees_at_slot
        state config).latest_active_index_roots =
      state.latest_active_index_roots ∧
    (process_crosslinks get_winning_root get_crosslink_committees_at_slot
        state config).latest_slashed_balances =
      state.latest_slashed_balances ∧
    (process_crosslinks get_winning_root get_crosslink_committees_at_slot
        state config).latest_attestations = state.latest_attestations ∧
    (process_crosslinks get_winning_root get_crosslink_committees_at_slot
        state config).justification_bitfield = state.justification_bitfield ∧
    (process_crosslinks get_winning_root get_crosslink_committees_at_slot
        state config).justified_epoch = state.justified_epoch ∧
    (process_crosslinks get_winning_root get_crosslink_committees_at_slot
        state config).previous_justified_epoch =
      state.previous_justified_epoch ∧
    (process_crosslinks get_winning_root get_crosslink_committees_at_slot
        state config).finalized_epoch = state.finalized_epoch ∧
    (process_crosslinks get_winning_root get_crosslink_committees_at_slot
        state config).current_calculation_epoch =
      state.current_calculation_epoch ∧
    (process_crosslinks get_winning_root get_crosslink_committees_at_slot
        state config).previous_calculation_epoch =
      state.previous_calculation_epoch ∧
    (process_crosslinks get_winning_root get_crosslink_committees_at_slot
        state config).current_epoch_seed = state.current_epoch_seed ∧
    (process_crosslinks get_winning_root get_crosslink_committees_at_slot
        state config).previous_epoch_seed = state.previous_epoch_seed ∧
    (process_crosslinks get_winning_root get_crosslink_committees_at_slot
        state config).current_epoch_start_shard =
      state.current_epoch_start_shard ∧
    (process_crosslinks get_winning_root get_crosslink_committees_at_slot
        state config).previous_epoch_start_shard =
      state.previous_epoch_start_shard ∧
    (process_crosslinks get_winning_root get_crosslink_committees_at_slot
        state config).validator_registry_update_epoch =
      state.validator_registry_update_epoch ∧
    (process_crosslinks get_winning_root get_crosslink_committees_at_slot
        state config).fork = state.fork :=
  ⟨rfl, rfl, rfl, rfl, rfl, rfl, rfl, rfl, rfl, rfl, rfl, rfl, rfl, rfl, rfl,
    rfl, rfl, rfl, rfl, rfl⟩

--
-- Final updates (epoch_processing.py)
--

/-- `_update_latest_active_index_roots(state, committee_config)`: recompute
the active-index root for `next_epoch + activation_exit_delay` from the
active validator indices at that epoch and store it at the corresponding
ring-buffer slot. The protocol hash function `hash_eth2` (not under src/) is
abstracted as `hashFn`, consuming the index list directly. -/
def _update_latest_active_index_roots (hashFn : List Nat → Hash32)
    (state : BeaconState) (config : BeaconConfig) : BeaconState :=
  let next_epoch := state.next_epoch config.EPOCH_LENGTH
  let active_validator_indices := get_active_validator_indices
    state.validator_registry (next_epoch + config.ACTIVATION_EXIT_DELAY)
  let index_root := hashFn active_validator_indices
  let latest_active_index_roots := update_tuple_item
    state.latest_active_index_roots
    ((next_epoch + config.ACTIVATION_EXIT_DELAY) %
      (config.LATEST_ACTIVE_INDEX_ROOTS_LENGTH : Int)).toNat
    index_root
  { state with latest_active_index_roots := latest_active_index_roots }

/-- `process_final_updates(state, config)`: update the active-index-root ring
buffer, copy the slashed-balances entry and the current epoch's RANDAO mix
forward into the next epoch's slots (both indexed modulo
`LATEST_SLASHED_EXIT_LENGTH`, as in the source), and prune stale
attestations. -/
def process_final_updates (hashFn : List Nat → Hash32) (state : BeaconState)
    (config : BeaconConfig) : Except String BeaconState :=
  let current_epoch := state.current_epoch config.EPOCH_LENGTH
  let next_epoch := state.next_epoch config.EPOCH_LENGTH
  let state1 := _update_latest_active_index_roots hashFn state config
  match get_randao_mix state1 current_epoch config.EPOCH_LENGTH
      config.LATEST_RANDAO_MIXES_LENGTH with
  | .error e => .error e
  | .ok mix =>
    let state2 := { state1 with
      latest_slashed_balances := update_tuple_item
        state1.latest_slashed_balances
        (next_epoch % (config.LATEST_SLASHED_EXIT_LENGTH : Int)).toNat
        (state1.latest_slashed_balances.getD
          (current_epoch % (config.LATEST_SLASHED_EXIT_LENGTH : Int)).toNat 0)
      latest_randao_mixes := update_tuple_item state1.latest_randao_mixes
        (next_epoch % (config.LATEST_SLASHED_EXIT_LENGTH : Int)).toNat mix }
    let latest_attestations := state2.latest_attestations.filter
      (fun attestation =>
        decide (slot_to_epoch attestation.data.slot config.EPOCH_LENGTH ≥
          current_epoch))
    .ok { state2 with latest_attestations := latest_attestations }

--
-- C6: the ring-buffer copy-forward writes
--

/-- C6: for every state and config, `process_final_updates` copies the input
state's `latest_slashed_balances` entry at index
`current_epoch % LATEST_SLASHED_EXIT_LENGTH` into index
`next_epoch % LATEST_SLASHED_EXIT_LENGTH`, and writes the current epoch's
RANDAO mix (read from `latest_randao_mixes` at
`current_epoch % LATEST_RANDAO_MIXES_LENGTH`) into `latest_randao_mixes` at
index `next_epoch % LATEST_SLASHED_EXIT_LENGTH` — the slashed-balances
buffer length, not `LATEST_RANDAO_MIXES_LENGTH`, is the modulus used for the
RANDAO-mix write. -/
theorem process_final_updates_copy_forward (hashFn : List Nat → Hash32)
    (state : BeaconState) (config : BeaconConfig) (s : BeaconState)
    (h : process_final_updates hashFn state config = .ok s) :
    s.latest_slashed_balances =
      update_tuple_item state.latest_slashed_balances
        ((state.next_epoch config.EPOCH_LENGTH) %
          (config.LATEST_SLASHED_EXIT_LENGTH : Int)).toNat
        (state.latest_slashed_balances.getD
          ((state.current_epoch config.EPOCH_LENGTH) %
            (config.LATEST_SLASHED_EXIT_LENGTH : Int)).toNat 0) ∧
    s.latest_randao_mixes =
      update_tuple_item state.latest_randao_mixes
        ((state.next_epoch config.EPOCH_LENGTH) %
          (config.LATEST_SLASHED_EXIT_LENGTH : Int)).toNat
        (state.latest_randao_mixes.getD
          ((state.current_epoch config.EPOCH_LENGTH) %
            (config.LATEST_RANDAO_MIXES_LENGTH : Int)).toNat 0) := by
  simp only [process_final_updates] at h
  rcases hmix : get_randao_mix
      (_update_latest_active_index_roots hashFn state config)
      (state.current_epoch config.EPOCH_LENGTH) config.EPOCH_LENGTH
      config.LATEST_RANDAO_MIXES_LENGTH with e | mix
  · rw [hmix] at h
    cases h
  · rw [hmix] at h
    injection h with h
    subst h
    have hmixval : mix =
        state.latest_randao_mixes.getD
          ((state.current_epoch config.EPOCH_LENGTH) %
            (config.LATEST_RANDAO_MIXES_LENGTH : Int)).toNat 0 := by
      simp only [get_randao_mix, validate_epoch_for_active_randao_mix] at hmix
      split at hmix
      · cases hmix
      · injection hmix with hmix
        exact hmix.symm
    rw [hmixval]
    exact ⟨rfl, rfl⟩

/-- C6 witness: the copy-forward theorem applied at a concrete state whose
final-updates transition succeeds. -/
theorem process_final_updates_copy_forward_witness :
    ((process_final_updates (fun _ => 0) sampleState sampleConfig).toOption.getD
        sampleState).latest_slashed_balances =
      update_tuple_item sampleState.latest_slashed_balances
        ((sampleState.next_epoch sampleConfig.EPOCH_LENGTH) %
          (sampleConfig.LATEST_SLASHED_EXIT_LENGTH : Int)).toNat
        (sampleState.latest_slashed_balances.getD
          ((sampleState.current_epoch sampleConfig.EPOCH_LENGTH) %
            (sampleConfig.LATEST_SLASHED_EXIT_LENGTH : Int)).toNat 0) ∧
    ((process_final_updates (fun _ => 0) sampleState sampleConfig).toOption.getD
        sampleState).latest_randao_mixes =
      update_tuple_item sampleState.latest_randao_mixes
        ((sampleState.next_epoch sampleConfig.EPOCH_LENGTH) %
          (sampleConfig.LATEST_SLASHED_EXIT_LENGTH : Int)).toNat
        (sampleState.latest_randao_mixes.getD
          ((sampleState.current_epoch sampleConfig.EPOCH_LENGTH) %
            (sampleConfig.LATEST_RANDAO_MIXES_LENGTH : Int)).toNat 0) :=
  process_final_updates_copy_forward (fun _ => 0) sampleState sampleConfig _
    (by rfl)

--
-- Validator registry (epoch_processing.py)
--

/-- Modelled from the spec: `is_power_of_two(value)` (eth2/_utils/numeric.py
is not under src/) — whether `value` is an exact power of two (positive, with
a single bit set). -/
def is_power_of_two (value : Int) : Bool :=
  decide (0 < value) && (value.toNat &&& (value.toNat - 1) == 0)

/-- `_check_if_update_validator_registry(state, config)`: a registry update
is due iff the finalized epoch has passed `validator_registry_update_epoch`
and every shard touched by the current epoch's committees has a crosslink
newer than `validator_registry_update_epoch`; returns the flag and the
number of shards in the current committees.
`get_current_epoch_committee_count` (committee_helpers.py, not under src/)
is the committee-assignment collaborator's count, abstracted as the
parameter `get_current_epoch_committee_count`. -/
def _check_if_update_validator_registry
    (get_current_epoch_committee_count : BeaconState → BeaconConfig → Nat)
    (state : BeaconState) (config : BeaconConfig) : Bool × Nat :=
  if state.finalized_epoch ≤ state.validator_registry_update_epoch then
    (false, 0)
  else
    let num_shards_in_committees :=
      get_current_epoch_committee_count state config
    let shards := (List.range num_shards_in_committees).map
      (fun i => (state.current_epoch_start_shard + i) % config.SHARD_COUNT)
    if shards.any (fun shard =>
        decide ((state.latest_crosslinks.getD shard ⟨0, 0⟩).epoch ≤
          state.validator_registry_update_epoch)) then
      (false, 0)
    else
      (true, num_shards_in_committees)

/-- `update_validator_registry(state)`: an explicit stub in the source
(returns the state unchanged). -/
def update_validator_registry (state : BeaconState) : BeaconState :=
  state

/-- `process_validator_registry(state, config)`: snapshot the previous
calculation epoch, start shard and seed from the current values, then either
run the registry update path or, on a power-of-two epoch cadence, refresh
the calculation epoch and seed. -/
def process_validator_registry
    (get_current_epoch_committee_count : BeaconState → BeaconConfig → Nat)
    (hashFn : List Nat → Hash32) (state : BeaconState)
    (config : BeaconConfig) : Except String BeaconState :=
  let state0 := { state with
    previous_calculation_epoch := state.current_calculation_epoch
    previous_epoch_start_shard := state.current_epoch_start_shard
    previous_epoch_seed := state.current_epoch_seed }
  let check := _check_if_update_validator_registry
    get_current_epoch_committee_count state0 config
  let need_to_update := check.1
  let num_shards_in_committees := check.2
  if need_to_update then
    let state1 := update_validator_registry state0
    let state2 := { state1 with
      current_calculation_epoch := state1.next_epoch config.EPOCH_LENGTH }
    let state3 := { state2 with
      current_epoch_start_shard :=
        (state2.current_epoch_start_shard + num_shards_in_committees) %
          config.SHARD_COUNT }
    match generate_seed hashFn state3 state3.current_calculation_epoch
        config.EPOCH_LENGTH config.MIN_SEED_LOOKAHEAD
        config.ACTIVATION_EXIT_DELAY config.LATEST_ACTIVE_INDEX_ROOTS_LENGTH
        config.LATEST_RANDAO_MIXES_LENGTH with
    | .error e => .error e
    | .ok current_epoch_seed =>
        .ok { state3 with current_epoch_seed := current_epoch_seed }
  else
    let epochs_since_last_registry_change :=
      state0.current_epoch config.EPOCH_LENGTH -
        state0.validator_registry_update_epoch
    if is_power_of_two epochs_since_last_registry_change then
      let state2 := { state0 with
        current_calculation_epoch := state0.next_epoch config.EPOCH_LENGTH }
      match generate_seed hashFn state2 state2.current_calculation_epoch
          config.EPOCH_LENGTH config.MIN_SEED_LOOKAHEAD
          config.ACTIVATION_EXIT_DELAY
          config.LATEST_ACTIVE_INDEX_ROOTS_LENGTH
          config.LATEST_RANDAO_MIXES_LENGTH with
      | .error e => .error e
      | .ok current_epoch_seed =>
          .ok { state2 with current_epoch_seed := current_epoch_seed }
    else
      .ok state0

--
-- C7: the unconditional previous-value snapshot
--

/-- C7: for every state and config (and any committee-count collaborator and
hash function), whenever `process_validator_registry` returns a state, that
state's `previous_calculation_epoch` equals the input's
`current_calculation_epoch`, its `previous_epoch_start_shard` equals the
input's `current_epoch_start_shard`, and its `previous_epoch_seed` equals
the input's `current_epoch_seed` — in the registry-update branch, in the
power-of-two seed-refresh branch, and when no other change occurs. -/
theorem process_validator_registry_snapshot
    (get_current_epoch_committee_count : BeaconState → BeaconConfig → Nat)
    (hashFn : List Nat → Hash32) (state : BeaconState)
    (config : BeaconConfig) (s : BeaconState)
    (h : process_validator_registry get_current_epoch_committee_count hashFn
        state config = .ok s) :
    s.previous_calculation_epoch = state.current_calculation_epoch ∧
    s.previous_epoch_start_shard = state.current_epoch_start_shard ∧
    s.previous_epoch_seed = state.current_epoch_seed := by
  simp only [process_validator_registry] at h
  split at h
  · split at h
    · cases h
    · injection h with h
      subst h
      exact ⟨rfl, rfl, rfl⟩
  · split at h
    · split at h
      · cases h
      · injection h with h
        subst h
        exact ⟨rfl, rfl, rfl⟩
    · injection h with h
      subst h
      exact ⟨rfl, rfl, rfl⟩

/-- C7 witness: the snapshot theorem applied at a concrete state (slot 15,
three epochs since the last registry change, so neither branch changes
anything else). -/
theorem process_validator_registry_snapshot_witness :
    ((process_validator_registry (fun _ _ => 2) (fun _ => 0)
          { sampleState with slot := 15 } sampleConfig).toOption.getD
        sampleState).previous_calculation_epoch =
      ({ sampleState with slot := 15 } : BeaconState).current_calculation_epoch ∧
    ((process_validator_registry (fun _ _ => 2) (fun _ => 0)
          { sampleState with slot := 15 } sampleConfig).toOption.getD
        sampleState).previous_epoch_start_shard =
      ({ sampleState with slot := 15 } : BeaconState).current_epoch_start_shard ∧
    ((process_validator_registry (fun _ _ => 2) (fun _ => 0)
          { sampleState with slot := 15 } sampleConfig).toOption.getD
        sampleState).previous_epoch_seed =
      ({ sampleState with slot := 15 } : BeaconState).current_epoch_seed :=
  process_validator_registry_snapshot (fun _ _ => 2) (fun _ => 0)
    { sampleState with slot := 15 } sampleConfig _ (by rfl)
